import Mathlib

/-!
Shallow embedding of the plugin-list resolution logic and the starter
plugin surface of the sui-agent repository.

The character's plugin list (src/index.ts, `character.plugins`) is a
concatenation of conditional singleton chunks driven by environment
variables.  Provider keys are tested with JavaScript truthiness of
`process.env.KEY?.trim()` (defined and non-blank after trimming); the
bootstrap suppression key is tested with plain truthiness of
`process.env.IGNORE_BOOTSTRAP` (defined and non-empty, no trimming).
-/

namespace SuiAgent

/-- JavaScript truthiness of a `string | undefined` value: `undefined` and
the empty string are falsy, every other string is truthy. -/
def truthy : Option String → Bool
  | none => false
  | some s => s ≠ ""

/-- JavaScript `String.prototype.trim`: remove leading and trailing
whitespace.  Modelled structurally over the character list of the
string so that it evaluates on concrete inputs. -/
def jsTrim (s : String) : String :=
  ⟨(((s.data.dropWhile Char.isWhitespace).reverse.dropWhile Char.isWhitespace).reverse)⟩

/-- Truthiness of the JavaScript expression `v?.trim()`: the value is
defined and non-empty after trimming leading/trailing whitespace. -/
def presentTrim (v : Option String) : Bool :=
  truthy (v.map jsTrim)

/-- The twelve environment variables consulted by `character.plugins` in
src/index.ts.  Each is a `string | undefined` process-environment entry. -/
structure Env where
  ANTHROPIC_API_KEY : Option String := none
  OPENROUTER_API_KEY : Option String := none
  OPENAI_API_KEY : Option String := none
  GOOGLE_GENERATIVE_AI_API_KEY : Option String := none
  OLLAMA_API_ENDPOINT : Option String := none
  DISCORD_API_TOKEN : Option String := none
  TWITTER_API_KEY : Option String := none
  TWITTER_API_SECRET_KEY : Option String := none
  TWITTER_ACCESS_TOKEN : Option String := none
  TWITTER_ACCESS_TOKEN_SECRET : Option String := none
  TELEGRAM_BOT_TOKEN : Option String := none
  IGNORE_BOOTSTRAP : Option String := none

/-- The plugin list of the character, exactly as assembled by the array
literal in src/index.ts lines 45-84: core first, then text-only
providers (anthropic, openrouter), then embedding providers (openai,
google-genai), then the ollama fallback, then platform integrations
(discord, twitter, telegram), then bootstrap unless `IGNORE_BOOTSTRAP`
is truthy. -/
def resolvePlugins (e : Env) : List String :=
  ["@elizaos/plugin-sql"]
  ++ (if presentTrim e.ANTHROPIC_API_KEY then ["@elizaos/plugin-anthropic"] else [])
  ++ (if presentTrim e.OPENROUTER_API_KEY then ["@elizaos/plugin-openrouter"] else [])
  ++ (if presentTrim e.OPENAI_API_KEY then ["@elizaos/plugin-openai"] else [])
  ++ (if presentTrim e.GOOGLE_GENERATIVE_AI_API_KEY then ["@elizaos/plugin-google-genai"] else [])
  ++ (if presentTrim e.OLLAMA_API_ENDPOINT then ["@elizaos/plugin-ollama"] else [])
  ++ (if presentTrim e.DISCORD_API_TOKEN then ["@elizaos/plugin-discord"] else [])
  ++ (if presentTrim e.TWITTER_API_KEY && presentTrim e.TWITTER_API_SECRET_KEY
        && presentTrim e.TWITTER_ACCESS_TOKEN && presentTrim e.TWITTER_ACCESS_TOKEN_SECRET
      then ["@elizaos/plugin-twitter"] else [])
  ++ (if presentTrim e.TELEGRAM_BOT_TOKEN then ["@elizaos/plugin-telegram"] else [])
  ++ (if !truthy e.IGNORE_BOOTSTRAP then ["@elizaos/plugin-bootstrap"] else [])

/-- The full ordered catalog of plugin identifiers appearing in the array
literal, in source order. -/
def pluginCatalog : List String :=
  ["@elizaos/plugin-sql", "@elizaos/plugin-anthropic", "@elizaos/plugin-openrouter",
   "@elizaos/plugin-openai", "@elizaos/plugin-google-genai", "@elizaos/plugin-ollama",
   "@elizaos/plugin-discord", "@elizaos/plugin-twitter", "@elizaos/plugin-telegram",
   "@elizaos/plugin-bootstrap"]

/-- A conditional singleton chunk is a sublist of its singleton. -/
lemma ite_singleton_sublist (b : Bool) (x : String) :
    List.Sublist (if b then [x] else []) [x] := by
  cases b
  · simp
  · simp

/-- Membership in a conditional singleton chunk. -/
lemma mem_ite_singleton (a : String) (b : Bool) (x : String) :
    a ∈ (if b then [x] else []) ↔ (b = true ∧ a = x) := by
  cases b
  · simp
  · simp

/-- Every resolved plugin list is a sublist of the catalog, in catalog
order. -/
lemma resolvePlugins_sublist (e : Env) : List.Sublist (resolvePlugins e) pluginCatalog := by
  unfold resolvePlugins pluginCatalog
  simp only [List.append_assoc]
  show List.Sublist _
    (["@elizaos/plugin-sql"] ++ (["@elizaos/plugin-anthropic"] ++ (["@elizaos/plugin-openrouter"]
      ++ (["@elizaos/plugin-openai"] ++ (["@elizaos/plugin-google-genai"]
      ++ (["@elizaos/plugin-ollama"] ++ (["@elizaos/plugin-discord"]
      ++ (["@elizaos/plugin-twitter"] ++ (["@elizaos/plugin-telegram"]
      ++ ["@elizaos/plugin-bootstrap"])))))))))
  refine List.Sublist.append (List.Sublist.refl _) ?_
  refine List.Sublist.append (ite_singleton_sublist _ _) ?_
  refine List.Sublist.append (ite_singleton_sublist _ _) ?_
  refine List.Sublist.append (ite_singleton_sublist _ _) ?_
  refine List.Sublist.append (ite_singleton_sublist _ _) ?_
  refine List.Sublist.append (ite_singleton_sublist _ _) ?_
  refine List.Sublist.append (ite_singleton_sublist _ _) ?_
  refine List.Sublist.append (ite_singleton_sublist _ _) ?_
  exact List.Sublist.append (ite_singleton_sublist _ _) (ite_singleton_sublist _ _)

/-- The catalog itself has no duplicate identifiers. -/
lemma pluginCatalog_nodup : pluginCatalog.Nodup := by decide

end SuiAgent

namespace SuiAgent

/-- C7: for every configuration of the recognized keys, the core plugin
identifier "@elizaos/plugin-sql" is the element at index 0 of the
resolved plugin list. -/
theorem core_plugin_first (e : Env) :
    (resolvePlugins e).head? = some "@elizaos/plugin-sql" := rfl

/-- C3: when none of the optional keys is set, the resolved plugin list
is exactly the two-element list of the core and bootstrap identifiers. -/
theorem empty_config_resolves_core_bootstrap (e : Env)
    (h1 : e.ANTHROPIC_API_KEY = none) (h2 : e.OPENROUTER_API_KEY = none)
    (h3 : e.OPENAI_API_KEY = none) (h4 : e.GOOGLE_GENERATIVE_AI_API_KEY = none)
    (h5 : e.OLLAMA_API_ENDPOINT = none) (h6 : e.DISCORD_API_TOKEN = none)
    (h7 : e.TWITTER_API_KEY = none) (h8 : e.TWITTER_API_SECRET_KEY = none)
    (h9 : e.TWITTER_ACCESS_TOKEN = none) (h10 : e.TWITTER_ACCESS_TOKEN_SECRET = none)
    (h11 : e.TELEGRAM_BOT_TOKEN = none) (h12 : e.IGNORE_BOOTSTRAP = none) :
    resolvePlugins e = ["@elizaos/plugin-sql", "@elizaos/plugin-bootstrap"] := by
  cases e
  simp only at h1 h2 h3 h4 h5 h6 h7 h8 h9 h10 h11 h12
  subst h1 h2 h3 h4 h5 h6 h7 h8 h9 h10 h11 h12
  rfl

/-- Witness for C3 at the all-unset environment. -/
theorem empty_config_resolves_core_bootstrap_witness :
    resolvePlugins {} = ["@elizaos/plugin-sql", "@elizaos/plugin-bootstrap"] :=
  empty_config_resolves_core_bootstrap {} rfl rfl rfl rfl rfl rfl rfl rfl rfl rfl rfl rfl

/-- C4: a provider or platform plugin is included in the resolved list
iff every one of its required configuration keys is defined and non-blank
after trimming; the four-key twitter plugin requires all four keys
simultaneously, so any three of the four do not suffice. -/
theorem provider_inclusion_iff (e : Env) :
    ("@elizaos/plugin-anthropic" ∈ resolvePlugins e ↔ presentTrim e.ANTHROPIC_API_KEY = true)
    ∧ ("@elizaos/plugin-openrouter" ∈ resolvePlugins e ↔ presentTrim e.OPENROUTER_API_KEY = true)
    ∧ ("@elizaos/plugin-openai" ∈ resolvePlugins e ↔ presentTrim e.OPENAI_API_KEY = true)
    ∧ ("@elizaos/plugin-google-genai" ∈ resolvePlugins e
        ↔ presentTrim e.GOOGLE_GENERATIVE_AI_API_KEY = true)
    ∧ ("@elizaos/plugin-ollama" ∈ resolvePlugins e ↔ presentTrim e.OLLAMA_API_ENDPOINT = true)
    ∧ ("@elizaos/plugin-discord" ∈ resolvePlugins e ↔ presentTrim e.DISCORD_API_TOKEN = true)
    ∧ ("@elizaos/plugin-twitter" ∈ resolvePlugins e
        ↔ (presentTrim e.TWITTER_API_KEY = true ∧ presentTrim e.TWITTER_API_SECRET_KEY = true
            ∧ presentTrim e.TWITTER_ACCESS_TOKEN = true
            ∧ presentTrim e.TWITTER_ACCESS_TOKEN_SECRET = true))
    ∧ ("@elizaos/plugin-telegram" ∈ resolvePlugins e ↔ presentTrim e.TELEGRAM_BOT_TOKEN = true) := by
  simp only [resolvePlugins, List.mem_append, mem_ite_singleton, List.mem_singleton,
    Bool.and_eq_true]
  refine ⟨?_, ?_, ?_, ?_, ?_, ?_, ?_, ?_⟩ <;> constructor <;> intro h
  all_goals first
    | (rcases h with (((((((((h | h) | h) | h) | h) | h) | h) | h) | h) | h) <;>
        simp_all)
    | simp_all

/-- C8: plugin-list resolution is a pure, deterministic function of the
twelve configuration-key values: two environments that agree on every
consulted key resolve to list-equal plugin lists. -/
theorem resolve_deterministic (e₁ e₂ : Env)
    (h1 : e₁.ANTHROPIC_API_KEY = e₂.ANTHROPIC_API_KEY)
    (h2 : e₁.OPENROUTER_API_KEY = e₂.OPENROUTER_API_KEY)
    (h3 : e₁.OPENAI_API_KEY = e₂.OPENAI_API_KEY)
    (h4 : e₁.GOOGLE_GENERATIVE_AI_API_KEY = e₂.GOOGLE_GENERATIVE_AI_API_KEY)
    (h5 : e₁.OLLAMA_API_ENDPOINT = e₂.OLLAMA_API_ENDPOINT)
    (h6 : e₁.DISCORD_API_TOKEN = e₂.DISCORD_API_TOKEN)
    (h7 : e₁.TWITTER_API_KEY = e₂.TWITTER_API_KEY)
    (h8 : e₁.TWITTER_API_SECRET_KEY = e₂.TWITTER_API_SECRET_KEY)
    (h9 : e₁.TWITTER_ACCESS_TOKEN = e₂.TWITTER_ACCESS_TOKEN)
    (h10 : e₁.TWITTER_ACCESS_TOKEN_SECRET = e₂.TWITTER_ACCESS_TOKEN_SECRET)
    (h11 : e₁.TELEGRAM_BOT_TOKEN = e₂.TELEGRAM_BOT_TOKEN)
    (h12 : e₁.IGNORE_BOOTSTRAP = e₂.IGNORE_BOOTSTRAP) :
    resolvePlugins e₁ = resolvePlugins e₂ := by
  cases e₁
  cases e₂
  simp only at h1 h2 h3 h4 h5 h6 h7 h8 h9 h10 h11 h12
  subst h1 h2 h3 h4 h5 h6 h7 h8 h9 h10 h11 h12
  rfl

/-- Witness for C8 at two structurally identical concrete environments. -/
theorem resolve_deterministic_witness :
    resolvePlugins { OPENAI_API_KEY := some "x" } = resolvePlugins { OPENAI_API_KEY := some "x" } :=
  resolve_deterministic { OPENAI_API_KEY := some "x" } { OPENAI_API_KEY := some "x" }
    rfl rfl rfl rfl rfl rfl rfl rfl rfl rfl rfl rfl

/-- C9: for every configuration, the resolved plugin list contains no
duplicate identifiers, because it is a sublist of the duplicate-free
catalog. -/
theorem resolve_nodup (e : Env) : (resolvePlugins e).Nodup :=
  List.Nodup.sublist (resolvePlugins_sublist e) pluginCatalog_nodup

/-- The environment with only `OPENAI_API_KEY` set (to a non-blank
value) and no other optional key set. -/
def envOpenAIOnly : Env := { OPENAI_API_KEY := some "x" }

/-- Counterexample to C1 as stated: with only `OPENAI_API_KEY` set, the
resolved list is not `[core, bootstrap, openai]` — openai is appended
before bootstrap, not after it. -/
theorem openai_only_not_after_bootstrap :
    resolvePlugins envOpenAIOnly
      ≠ ["@elizaos/plugin-sql", "@elizaos/plugin-bootstrap", "@elizaos/plugin-openai"] := by
  decide

/-- C1 amended: embedding-capable providers are appended after the
text-only providers but before the fallback, platform-integration and
bootstrap entries; with only `OPENAI_API_KEY` set the resolved list is
`[core, openai, bootstrap]`, and every resolved list respects the
catalog order (sql, anthropic, openrouter, openai, google-genai, ollama,
discord, twitter, telegram, bootstrap). -/
theorem embedding_before_bootstrap :
    resolvePlugins envOpenAIOnly
      = ["@elizaos/plugin-sql", "@elizaos/plugin-openai", "@elizaos/plugin-bootstrap"]
    ∧ ∀ e : Env, List.Sublist (resolvePlugins e) pluginCatalog :=
  ⟨by decide, resolvePlugins_sublist⟩

/-- The environment with `IGNORE_BOOTSTRAP` set to the empty string and
no other key set. -/
def envEmptyIgnore : Env := { IGNORE_BOOTSTRAP := some "" }

/-- Counterexample to C2 as stated: setting `IGNORE_BOOTSTRAP` to the
empty string does not suppress bootstrap — the empty string is falsy in
JavaScript, so `!process.env.IGNORE_BOOTSTRAP` is still true and the
bootstrap identifier is still appended. -/
theorem empty_ignore_does_not_suppress :
    "@elizaos/plugin-bootstrap" ∈ resolvePlugins envEmptyIgnore := by
  decide

/-- C2 amended: the bootstrap identifier is appended unless
`IGNORE_BOOTSTRAP` is truthy, i.e. defined and non-empty (no trimming is
applied, so a whitespace-only value does suppress, while the empty
string behaves as unset); and the value of `IGNORE_BOOTSTRAP` leaves
every other plugin's inclusion decision unaffected: the resolved list is
always the bootstrap-suppressed list followed by the conditional
bootstrap entry. -/
theorem bootstrap_suppression (e : Env) (v : Option String) :
    ("@elizaos/plugin-bootstrap" ∈ resolvePlugins e ↔ truthy e.IGNORE_BOOTSTRAP = false)
    ∧ resolvePlugins { e with IGNORE_BOOTSTRAP := v }
        = resolvePlugins { e with IGNORE_BOOTSTRAP := some "1" }
          ++ (if truthy v then [] else ["@elizaos/plugin-bootstrap"]) := by
  constructor
  · simp only [resolvePlugins, List.mem_append, mem_ite_singleton, Bool.not_eq_true']
    cases htb : truthy e.IGNORE_BOOTSTRAP <;> simp
  · cases e
    cases htv : truthy v <;>
      simp [resolvePlugins, htv, show truthy (some "1") = true from rfl]

/-- Message content, as used by the HELLO_WORLD action (text, action
tags and the source channel of the triggering message). -/
structure Content where
  text : String
  actions : List String := []
  source : Option String := none
deriving DecidableEq

/-- A memory record: the triggering message, with its id and content. -/
structure Memory where
  id : Option String := none
  content : Content := { text := "" }
deriving DecidableEq

/-- Opaque conversation state handed to validate/handler; the starter
plugin never inspects it. -/
structure State where
  mk ::
deriving DecidableEq

/-- A registered service instance as seen through the runtime service
registry; the starter plugin only tests it for presence. -/
structure ServiceInstance where
  mk ::
deriving DecidableEq

/-- The slice of the agent runtime the starter plugin consults: the
service registry lookup `runtime.getService(serviceType)`. -/
structure AgentRuntime where
  getService : String → Option ServiceInstance

/-- Values record of an action result (`values` in part_003): success
flag plus the optional greeted flag or error tag. -/
structure ActionValues where
  success : Bool
  greeted : Option Bool := none
  error : Option String := none
deriving DecidableEq

/-- Data record of an action result (`data` in part_003). -/
structure ActionData where
  actionName : String
  messageId : Option String := none
  timestamp : Option Nat := none
  error : Option String := none
deriving DecidableEq

/-- An action result as returned by the HELLO_WORLD handler. -/
structure ActionResult where
  text : String
  values : ActionValues
  data : ActionData
  success : Bool
  error : Option String := none
deriving DecidableEq

/-- The HELLO_WORLD action's validate function: always true, for every
runtime, message and state. -/
def helloWorldValidate (_runtime : AgentRuntime) (_message : Memory) (_state : State) : Bool :=
  true

/-- The response content the HELLO_WORLD handler builds: fixed text
"hello world!", the HELLO_WORLD action tag, and the source of the
triggering message. -/
def helloResponseContent (message : Memory) : Content :=
  { text := "hello world!", actions := ["HELLO_WORLD"], source := message.content.source }

/-- The HELLO_WORLD action's handler.  It builds the fixed response
content, invokes the supplied callback on it, and returns the success
record; the surrounding try/catch turns a thrown callback error into a
failure record with values success false and error tag GREETING_FAILED.
The callback is modelled as a fallible function, `Date.now()` as the
`now` argument. -/
def helloWorldHandler (message : Memory) (callback : Content → Except String Unit)
    (now : Nat) : ActionResult :=
  let responseContent := helloResponseContent message
  match callback responseContent with
  | .ok _ =>
    { text := "Sent hello world greeting",
      values := { success := true, greeted := some true },
      data := { actionName := "HELLO_WORLD", messageId := message.id, timestamp := some now },
      success := true }
  | .error e =>
    { text := "Failed to send hello world greeting",
      values := { success := false, error := some "GREETING_FAILED" },
      data := { actionName := "HELLO_WORLD", error := some e },
      success := false,
      error := some e }

/-- The starter service: holds its runtime and a fixed capability
description. -/
structure StarterService where
  runtime : AgentRuntime
  capabilityDescription : String :=
    "This is a starter service which is attached to the agent through the starter plugin."

/-- The static service-type key of the starter service. -/
def StarterService.serviceType : String := "starter"

/-- Static `StarterService.start(runtime)`: throws "Starter service
already registered" when the runtime registry already returns an
instance under the service-type key, otherwise returns a new instance. -/
def StarterService.start (runtime : AgentRuntime) : Except String StarterService :=
  if (runtime.getService StarterService.serviceType).isSome then
    .error "Starter service already registered"
  else
    .ok { runtime := runtime }

/-- Static `StarterService.stop(runtime)`: throws "Starter service not
found" when no instance is registered under the service-type key,
otherwise stops the registered instance (whose instance stop only
logs). -/
def StarterService.stop (runtime : AgentRuntime) : Except String Unit :=
  match runtime.getService StarterService.serviceType with
  | none => .error "Starter service not found"
  | some _service => .ok ()

/-- Zod parse of the starter plugin's config schema: the single optional
key EXAMPLE_PLUGIN_VARIABLE must, when present, be a string of length at
least 1; the error message is the schema's min-length message. -/
def configSchemaParse (v : Option String) : Except String (Option String) :=
  match v with
  | none => .ok none
  | some s => if 1 ≤ s.length then .ok (some s) else .error "Example plugin variable is not provided"

/-- The starter plugin's init function over the EXAMPLE_PLUGIN_VARIABLE
config entry and the process environment (a key/value lookup): validate
the config against the schema, wrapping a schema failure in an
"Invalid plugin configuration" error before any environment write, then
write each validated entry with a truthy value back into the
environment. -/
def pluginInit (config : Option String) (env : String → Option String) :
    Except String (String → Option String) :=
  match configSchemaParse config with
  | .error e => .error ("Invalid plugin configuration: " ++ e)
  | .ok validated =>
    .ok (match validated with
      | some v =>
        if v ≠ "" then (fun k => if k = "EXAMPLE_PLUGIN_VARIABLE" then some v else env k) else env
      | none => env)

/-- A callback that always throws. -/
def throwingCallback : Content → Except String Unit := fun _ => .error "boom"

/-- A callback that always succeeds. -/
def okCallback : Content → Except String Unit := fun _ => .ok ()

/-- Counterexample to C5 as stated: when the supplied callback throws,
the HELLO_WORLD handler does not return the success record — the
try/catch produces a failure record with values success false, no
greeted flag, and error tag GREETING_FAILED. -/
theorem helloWorld_throwing_callback_fails :
    (helloWorldHandler {} throwingCallback 0).values.success = false
    ∧ (helloWorldHandler {} throwingCallback 0).values.greeted = none
    ∧ (helloWorldHandler {} throwingCallback 0).values.error = some "GREETING_FAILED"
    ∧ (helloWorldHandler {} throwingCallback 0).success = false :=
  ⟨rfl, rfl, rfl, rfl⟩

/-- C5 amended: validate returns true for every runtime, message and
state; the handler invokes the callback on the fixed reply text
"hello world!", and when the callback does not throw it returns the
success record with values success true and greeted true; when the
callback throws, it returns a failure record with values success false
and error GREETING_FAILED. -/
theorem helloWorld_action_contract (rt : AgentRuntime) (st : State) (msg : Memory)
    (cb : Content → Except String Unit) (now : Nat) :
    helloWorldValidate rt msg st = true
    ∧ (helloResponseContent msg).text = "hello world!"
    ∧ (∀ u, cb (helloResponseContent msg) = .ok u →
        helloWorldHandler msg cb now =
          { text := "Sent hello world greeting",
            values := { success := true, greeted := some true },
            data := { actionName := "HELLO_WORLD", messageId := msg.id, timestamp := some now },
            success := true })
    ∧ (∀ e, cb (helloResponseContent msg) = .error e →
        (helloWorldHandler msg cb now).values
            = { success := false, error := some "GREETING_FAILED" }
          ∧ (helloWorldHandler msg cb now).success = false) := by
  refine ⟨rfl, rfl, ?_, ?_⟩
  · intro u h
    simp [helloWorldHandler, h]
  · intro e h
    simp [helloWorldHandler, h]

/-- Witness for C5: the contract applied to a succeeding and to a
throwing callback at concrete inputs. -/
theorem helloWorld_action_contract_witness :
    (helloWorldHandler {} okCallback 0).success = true
    ∧ (helloWorldHandler {} okCallback 0).values.greeted = some true
    ∧ (helloWorldHandler {} throwingCallback 0).values.error = some "GREETING_FAILED" := by
  refine ⟨?_, ?_, ?_⟩
  · rw [(helloWorld_action_contract ⟨fun _ => none⟩ State.mk {} okCallback 0).2.2.1 () rfl]
  · rw [(helloWorld_action_contract ⟨fun _ => none⟩ State.mk {} okCallback 0).2.2.1 () rfl]
  · exact congrArg ActionValues.error
      ((helloWorld_action_contract ⟨fun _ => none⟩ State.mk {} throwingCallback 0).2.2.2
        "boom" rfl).1

/-- A runtime whose registry has no service registered. -/
def rtEmpty : AgentRuntime := ⟨fun _ => none⟩

/-- A runtime whose registry returns an instance for every key. -/
def rtRegistered : AgentRuntime := ⟨fun _ => some ⟨⟩⟩

/-- C6: the starter service's type key is "starter";
`StarterService.start` throws "Starter service already registered"
exactly when the registry already returns an instance under that key
and otherwise returns a new instance built on the runtime;
`StarterService.stop` throws "Starter service not found" exactly when
no instance is registered under that key and otherwise succeeds. -/
theorem starterService_registry (rt : AgentRuntime) :
    StarterService.serviceType = "starter"
    ∧ ((rt.getService "starter").isSome = true →
        StarterService.start rt = .error "Starter service already registered")
    ∧ ((rt.getService "starter").isSome = false →
        ∃ s : StarterService, StarterService.start rt = .ok s ∧ s.runtime = rt)
    ∧ ((rt.getService "starter").isNone = true →
        StarterService.stop rt = .error "Starter service not found")
    ∧ ((rt.getService "starter").isNone = false → StarterService.stop rt = .ok ()) := by
  refine ⟨rfl, ?_, ?_, ?_, ?_⟩ <;>
    cases h : rt.getService "starter" <;>
      simp [StarterService.start, StarterService.stop, StarterService.serviceType, h]

/-- Witness for C6: start on an occupied registry throws the duplicate
error; stop on an empty registry throws the not-found error. -/
theorem starterService_registry_witness :
    StarterService.start rtRegistered = .error "Starter service already registered"
    ∧ StarterService.stop rtEmpty = .error "Starter service not found" :=
  ⟨(starterService_registry rtRegistered).2.1 rfl,
   (starterService_registry rtEmpty).2.2.2.1 rfl⟩

/-- C10: the starter plugin's init leaves the environment unchanged
when the config entry is absent; it throws the wrapped schema error,
before any environment write, when the entry is the empty string; and
for a non-empty entry it returns the environment updated at exactly
EXAMPLE_PLUGIN_VARIABLE, leaving every other key unchanged. -/
theorem plugin_init_env (env : String → Option String) :
    pluginInit none env = .ok env
    ∧ pluginInit (some "") env
        = .error "Invalid plugin configuration: Example plugin variable is not provided"
    ∧ ∀ v : String, v ≠ "" →
        pluginInit (some v) env
          = .ok (fun k => if k = "EXAMPLE_PLUGIN_VARIABLE" then some v else env k)
        ∧ ∀ k, k ≠ "EXAMPLE_PLUGIN_VARIABLE" →
            (if k = "EXAMPLE_PLUGIN_VARIABLE" then some v else env k) = env k := by
  refine ⟨rfl, rfl, ?_⟩
  intro v hv
  have hd : v.data ≠ [] := by
    intro hdata
    apply hv
    cases v
    simp only at hdata
    simp [hdata]
  have hlen : 1 ≤ v.length := List.length_pos.mpr hd
  constructor
  · simp [pluginInit, configSchemaParse, hlen, hv]
  · intro k hk
    simp [hk]

/-- Witness for C10 at the entry "x" over the empty environment. -/
theorem plugin_init_env_witness :
    pluginInit (some "x") (fun _ => none)
      = .ok (fun k => if k = "EXAMPLE_PLUGIN_VARIABLE" then some "x" else none) :=
  ((plugin_init_env (fun _ => none)).2.2 "x" (by decide)).1

end SuiAgent
